import Mathlib

/-!
Verification of the AmbientLed Home Assistant integration
(`custom_components/ambientled/light.py`, the revision with the
pending-response correlation table).

The development shallowly embeds the WebSocket session manager:
the JSON wire model (`json.loads` is modelled by `jsonParse`),
the session state of `AmbientLedWebsocket`, its methods
(`connect`, `_handle_message`, `_schedule_reconnect`, `_reconnect`,
`get_devices`, `send_command`, `disconnect`, the exit path of `_listen`),
and the `WebSocketManager` registry (`get_connection`).

External I/O (socket writes, future resolution, connect handshakes) is
made explicit through small outcome oracles; all state mutations are the
ones the Python source performs.
-/

/-- The JSON value model for the wire messages (`json.loads` results).
Numbers are modelled as integers: the frames this integration exchanges
(`method`, `id`, `data`, `status`) use strings, objects, arrays, booleans
and small integers; float syntax is rejected by the modelled parser. -/
inductive Json where
  | null
  | bool (b : Bool)
  | num (n : Int)
  | str (s : String)
  | arr (elems : List Json)
  | obj (fields : List (String × Json))

/-- Python `dict` lookup on an association list (first matching key;
the insert operation below keeps keys unique, as a `dict` does). -/
def assocGet {β : Type} : List (String × β) → String → Option β
  | [], _ => none
  | (k2, v) :: rest, k => if k2 = k then some v else assocGet rest k

/-- Python `dict` assignment `d[k] = v`: replaces the value in place if the
key is present (keeping its position, as CPython dicts do), appends
otherwise. -/
def assocInsert {β : Type} : List (String × β) → String → β → List (String × β)
  | [], k, v => [(k, v)]
  | (k2, w) :: rest, k, v =>
      if k2 = k then (k2, v) :: rest else (k2, w) :: assocInsert rest k v

/-- Python `dict.pop(k, None)`: removes the binding for `k` if present. -/
def assocErase {β : Type} (l : List (String × β)) (k : String) : List (String × β) :=
  l.filter (fun p => p.1 ≠ k)

/-- Build a `dict` from parsed key/value pairs in order (later duplicate
keys override earlier ones, as in `json.loads`). -/
def mkDict (pairs : List (String × Json)) : List (String × Json) :=
  pairs.foldl (fun d p => assocInsert d p.1 p.2) []

/-- `data.get(k)` on a parsed JSON object. -/
def objGet (fields : List (String × Json)) (k : String) : Option Json :=
  assocGet fields k

/-- Python truthiness of a JSON value (`if not x`): `None`, `False`, `0`,
`""`, `[]` and `\x7b\x7d` are falsy. -/
def jsonTruthy : Json → Bool
  | Json.null => false
  | Json.bool b => b
  | Json.num n => if n = 0 then false else true
  | Json.str s => if s = "" then false else true
  | Json.arr [] => false
  | Json.arr (_ :: _) => true
  | Json.obj [] => false
  | Json.obj (_ :: _) => true

/-- `isinstance(x, list)`. -/
def Json.isArr : Json → Bool
  | Json.arr _ => true
  | _ => false

/-- ASCII whitespace, for Python `str.strip()` and the JSON grammar. -/
def isWsChar (c : Char) : Bool :=
  c = ' ' ∨ c = '\t' ∨ c = '\n' ∨ c = '\r'

/-- Decimal digit test, spelled out so proofs can case on the ten digits. -/
def isDigitChar (c : Char) : Bool :=
  c = '0' ∨ c = '1' ∨ c = '2' ∨ c = '3' ∨ c = '4' ∨
  c = '5' ∨ c = '6' ∨ c = '7' ∨ c = '8' ∨ c = '9'

/-- Numeric value of a digit character. -/
def charDigit (c : Char) : Nat :=
  if c = '0' then 0 else if c = '1' then 1 else if c = '2' then 2
  else if c = '3' then 3 else if c = '4' then 4 else if c = '5' then 5
  else if c = '6' then 6 else if c = '7' then 7 else if c = '8' then 8
  else 9

/-- ASCII lower-casing of one character (Python `str.lower()` restricted to
the ASCII range used by the protocol keep-alive words). -/
def asciiLower (c : Char) : Char :=
  if 'A' ≤ c ∧ c ≤ 'Z' then Char.ofNat (c.toNat + 32) else c

/-- Python `str.lower()`. -/
def pyLower (cs : List Char) : List Char :=
  cs.map asciiLower

/-- Drop leading whitespace. -/
def skipWs : List Char → List Char
  | [] => []
  | c :: cs => if isWsChar c then skipWs cs else c :: cs

/-- Python `str.strip()`: drop leading and trailing whitespace. -/
def pyStrip (cs : List Char) : List Char :=
  (skipWs ((skipWs cs).reverse)).reverse

/-- Parse the body of a JSON string (after the opening quote), with the
escape sequences the protocol can produce; `\u` escapes are out of the
modelled fragment and fail the parse. -/
def parseStrChars : List Char → Option (List Char × List Char)
  | [] => none
  | c :: cs =>
    if c = '"' then some ([], cs)
    else if c = '\\' then
      match cs with
      | [] => none
      | e :: cs2 =>
        match
          (if e = '"' then some '"'
           else if e = '\\' then some '\\'
           else if e = '/' then some '/'
           else if e = 'n' then some '\n'
           else if e = 't' then some '\t'
           else if e = 'r' then some '\r'
           else if e = 'b' then some (Char.ofNat 8)
           else if e = 'f' then some (Char.ofNat 12)
           else none) with
        | none => none
        | some ch =>
          match parseStrChars cs2 with
          | some (s, rest) => some (ch :: s, rest)
          | none => none
    else
      match parseStrChars cs with
      | some (s, rest) => some (c :: s, rest)
      | none => none

/-- Take a maximal run of decimal digits. -/
def takeDigits : List Char → (List Char × List Char)
  | [] => ([], [])
  | c :: cs =>
    if isDigitChar c then
      let (ds, rest) := takeDigits cs
      (c :: ds, rest)
    else ([], c :: cs)

/-- Decimal value of a digit run. -/
def digitsToNat (ds : List Char) : Nat :=
  ds.foldl (fun acc c => acc * 10 + charDigit c) 0

/-- One-or-more comma-separated array items, up to the closing bracket,
parameterized by the value parser of the next fuel level. -/
def parseArrLoop (p : List Char → Option (Json × List Char)) :
    Nat → List Char → Option (List Json × List Char)
  | 0, _ => none
  | fuel + 1, cs =>
    match p cs with
    | none => none
    | some (v, r) =>
      match skipWs r with
      | ',' :: r2 =>
        match parseArrLoop p fuel r2 with
        | some (vs, r3) => some (v :: vs, r3)
        | none => none
      | ']' :: r2 => some ([v], r2)
      | _ => none

/-- One-or-more comma-separated object members, up to the closing brace,
parameterized by the value parser of the next fuel level. -/
def parseObjLoop (p : List Char → Option (Json × List Char)) :
    Nat → List Char → Option (List (String × Json) × List Char)
  | 0, _ => none
  | fuel + 1, cs =>
    match skipWs cs with
    | '"' :: r =>
      match parseStrChars r with
      | none => none
      | some (kchars, r2) =>
        match skipWs r2 with
        | ':' :: r3 =>
          match p r3 with
          | none => none
          | some (v, r4) =>
            match skipWs r4 with
            | ',' :: r5 =>
              match parseObjLoop p fuel r5 with
              | some (fs, r6) => some ((String.mk kchars, v) :: fs, r6)
              | none => none
            | '\x7d' :: r5 => some ([(String.mk kchars, v)], r5)
            | _ => none
        | _ => none
    | _ => none

/-- Recursive-descent JSON value parser (the model of `json.loads`),
fuelled for termination. Returns the value and the unconsumed input. -/
def parseVal : Nat → List Char → Option (Json × List Char)
  | 0, _ => none
  | fuel + 1, cs0 =>
    match skipWs cs0 with
    | [] => none
    | c :: rest =>
      if c = 'n' then
        match rest with
        | 'u' :: 'l' :: 'l' :: r => some (Json.null, r)
        | _ => none
      else if c = 't' then
        match rest with
        | 'r' :: 'u' :: 'e' :: r => some (Json.bool true, r)
        | _ => none
      else if c = 'f' then
        match rest with
        | 'a' :: 'l' :: 's' :: 'e' :: r => some (Json.bool false, r)
        | _ => none
      else if c = '"' then
        match parseStrChars rest with
        | some (chars, r) => some (Json.str (String.mk chars), r)
        | none => none
      else if c = '-' ∨ isDigitChar c then
        let (sign, cs2) : Int × List Char :=
          if c = '-' then (-1, rest) else (1, c :: rest)
        match takeDigits cs2 with
        | ([], _) => none
        | (ds, r) =>
          match r with
          | d :: _ =>
            if d = '.' ∨ d = 'e' ∨ d = 'E' then none
            else some (Json.num (sign * (digitsToNat ds : Int)), r)
          | [] => some (Json.num (sign * (digitsToNat ds : Int)), [])
      else if c = '[' then
        match skipWs rest with
        | ']' :: r => some (Json.arr [], r)
        | cs2 =>
          match parseArrLoop (parseVal fuel) fuel cs2 with
          | some (vs, r) => some (Json.arr vs, r)
          | none => none
      else if c = '\x7b' then
        match skipWs rest with
        | '\x7d' :: r => some (Json.obj [], r)
        | cs2 =>
          match parseObjLoop (parseVal fuel) fuel cs2 with
          | some (fs, r) => some (Json.obj (mkDict fs), r)
          | none => none
      else none

/-- The model of `json.loads`: parse one value, require only trailing
whitespace after it (as `json.loads` does). -/
def jsonParse (s : String) : Option Json :=
  match parseVal (2 * s.data.length + 2) s.data with
  | some (v, rest) => if skipWs rest = [] then some v else none
  | none => none

/-- Status of an `asyncio.Task` handle field (`None` / live / cancelled). -/
inductive TaskState where
  | missing
  | active
  | cancelled
deriving DecidableEq, Repr

/-- Cancellation of a task handle: `if task: task.cancel()`. Cancelling an
already-cancelled task is a no-op; a `None` handle is skipped. -/
def cancelTask : TaskState → TaskState
  | TaskState.missing => TaskState.missing
  | _ => TaskState.cancelled

/-- The WebSocket transport handle (`self.ws` when not `None`). -/
structure Sock where
  closed : Bool
deriving DecidableEq, Repr

/-- The mutable state of `AmbientLedWebsocket` (its `__init__` fields).
`pendingResponses` maps a message id to the `done` flag of its
`asyncio.Future`; listeners are identified by opaque handles.
The `hass` handle and the `_recv_lock` (a cooperative mutex around
`recv`, irrelevant to the sequential model) are not represented. -/
structure WsState where
  token : String
  url : String
  ws : Option Sock
  connected : Bool
  reconnectTask : TaskState
  maxReconnectAttempts : Nat
  reconnectDelay : Nat
  listeners : List Nat
  pendingResponses : List (String × Bool)
  messageId : Nat
  listenTask : TaskState
  shutdown : Bool
deriving DecidableEq, Repr

/-- Externally observable actions of the message handler: resolution of a
pending future (`future.set_result(envelope)`) and a listener callback
invocation (`await listener(payload)`). -/
inductive MsgEffect where
  | resolve (id : String) (envelope : Json)
  | notify (listener : Nat) (payload : Json)

/-- Outcome oracle for the `websockets.connect` handshake awaited by
`connect()`. -/
inductive ConnectOutcome where
  | success
  | timeout
  | invalidUri
  | invalidStatus (code : Nat)
  | otherErr (msg : String)
deriving DecidableEq, Repr

/-- The typed exceptions `connect()` re-raises. -/
inductive ConnErr where
  | shuttingDown
  | connectTimeout
  | invalidUrl
  | authFailed
  | serverError (code : Nat)
  | connectionFailed (msg : String)
deriving DecidableEq, Repr

/-- Outcome oracle for `self.ws.send(...)` inside `get_devices`. -/
inductive SendOutcome where
  | ok
  | err
deriving DecidableEq, Repr

/-- Outcome oracle for `asyncio.wait_for(future, timeout=10)` inside
`get_devices`: either the reader loop resolved the future with a response
envelope, or the wait timed out. -/
inductive AwaitOutcome where
  | response (env : Json)
  | timeout

/-- Outcome oracle for `asyncio.wait_for(self.ws.send(...), timeout=5)`
inside `send_command`. -/
inductive SendCmdOutcome where
  | ok
  | timeout
  | err
deriving DecidableEq, Repr

/-- What a caller of `get_devices` observes: a normal return value, or a
propagated exception (the source catches everything, so the model never
produces `raised`; the constructor exists so that absence of typed
failures is a provable statement, not a typing artefact). -/
inductive WsError where
  | requestTimeout
  | sessionClosed
deriving DecidableEq, Repr

inductive GDResult where
  | ret (devices : List Json)
  | raised (e : WsError)

namespace AmbientLedWebsocket

/-- `AmbientLedWebsocket.__init__(token, url, hass)`. -/
def initWs (token url : String) : WsState :=
  { token := token
    url := url
    ws := none
    connected := false
    reconnectTask := TaskState.missing
    maxReconnectAttempts := 5
    reconnectDelay := 5
    listeners := []
    pendingResponses := []
    messageId := 0
    listenTask := TaskState.missing
    shutdown := false }

/-- `connect()`: raises if shutting down; on handshake success stores the
socket, sets `connected`, and (re)starts the listener task; every failure
sets `connected = False` and re-raises a typed error.  The second
component is the raised exception, `none` on success. -/
def connect (o : ConnectOutcome) (st : WsState) : WsState × Option ConnErr :=
  if st.shutdown then (st, some ConnErr.shuttingDown)
  else
    match o with
    | ConnectOutcome.success =>
        ({ st with ws := some { closed := false }
                   connected := true
                   listenTask := TaskState.active }, none)
    | ConnectOutcome.timeout =>
        ({ st with connected := false }, some ConnErr.connectTimeout)
    | ConnectOutcome.invalidUri =>
        ({ st with connected := false }, some ConnErr.invalidUrl)
    | ConnectOutcome.invalidStatus code =>
        if code = 401 then ({ st with connected := false }, some ConnErr.authFailed)
        else ({ st with connected := false }, some (ConnErr.serverError code))
    | ConnectOutcome.otherErr m =>
        ({ st with connected := false }, some (ConnErr.connectionFailed m))

/-- `data.get("method", "") == name` for the three method names the
handler distinguishes (a missing or non-string method compares unequal
to each of them, exactly as in Python). -/
def methodIs (fs : List (String × Json)) (name : String) : Bool :=
  match objGet fs "method" with
  | some (Json.str m) => m = name
  | _ => false

/-- Fan one payload out to every registered listener (listener exceptions
are caught and logged by the source, so a notification is emitted
unconditionally per listener). -/
def notifyAll (listeners : List Nat) (payload : Json) : List MsgEffect :=
  listeners.map (fun l => MsgEffect.notify l payload)

/-- The `getDevices` event branch: fan out each element of the device
array that is a dict, once per listener. -/
def fanout (listeners : List Nat) : List Json → List MsgEffect
  | [] => []
  | d :: ds =>
    (match d with
     | Json.obj _ => notifyAll listeners d
     | _ => []) ++ fanout listeners ds

/-- The event-classification tail of `_handle_message` (reached when the
frame is a JSON object whose `id` matched no pending entry).  Non-dict
payloads in the `getDevice` branch raise `AttributeError` on the log call
and are swallowed by the outer handler; an empty dict is falsy at the
final `if device_data` check and is logged as unhandled. -/
def handle_event (st : WsState) (fs : List (String × Json)) : WsState × List MsgEffect :=
  if methodIs fs "getDevice" && (objGet fs "data").isSome then
    match objGet fs "data" with
    | some (Json.obj []) => (st, [])
    | some (Json.obj dfs) => (st, notifyAll st.listeners (Json.obj dfs))
    | _ => (st, [])
  else if methodIs fs "getDevices" && (objGet fs "data").isSome then
    match objGet fs "data" with
    | some (Json.arr devices) => (st, fanout st.listeners devices)
    | _ => (st, [])
  else if methodIs fs "updateParams" && (objGet fs "data").isSome then
    (st, [])
  else
    match objGet fs "data" with
    | some (Json.obj []) => (st, [])
    | some (Json.obj dfs) => (st, notifyAll st.listeners (Json.obj dfs))
    | _ => (st, [])

/-- `_handle_message(message)`: discard empty and keep-alive frames,
attempt `json.loads`, give a matching pending entry absolute precedence
(popping it and resolving its future with the full envelope), otherwise
classify as an event.  A non-object parse or an unhashable `id` value
raises inside the `try` and is swallowed (discarded).  Every exception
path returns the state unchanged with no effects. -/
def handle_message (st : WsState) (message : String) : WsState × List MsgEffect :=
  if pyStrip message.data = [] then (st, [])
  else if pyLower (pyStrip message.data) = "pong".data ∨
          pyLower (pyStrip message.data) = "ping".data then (st, [])
  else
    match jsonParse message with
    | none => (st, [])
    | some (Json.obj fs) =>
      (match objGet fs "id" with
       | some (Json.str s) =>
         (match assocGet st.pendingResponses s with
          | some done =>
            if done then
              ({ st with pendingResponses := assocErase st.pendingResponses s }, [])
            else
              ({ st with pendingResponses := assocErase st.pendingResponses s },
               [MsgEffect.resolve s (Json.obj fs)])
          | none => handle_event st fs)
       | some (Json.obj _) => (st, [])
       | some (Json.arr _) => (st, [])
       | some _ => handle_event st fs
       | none => handle_event st fs)
    | some _ => (st, [])

/-- `_schedule_reconnect()`: refuses to schedule while shutting down,
otherwise cancels any previous reconnect task and starts a fresh one.
The second component records whether a reconnect task was created. -/
def schedule_reconnect (st : WsState) : WsState × Bool :=
  if st.shutdown then (st, false)
  else ({ st with reconnectTask := TaskState.active }, true)

/-- The `finally` block of `_listen()` (the reader-loop exit path):
clears `connected`, then schedules the Reconnector unless shutting
down. -/
def listen_exit (st : WsState) : WsState × Bool :=
  if st.shutdown then ({ st with connected := false }, false)
  else schedule_reconnect { st with connected := false }

/-- The attempt loop of `_reconnect()`, with one handshake outcome per
attempt index and the remaining attempt count as fuel.  Returns the final
state and the number of `connect()` calls made. -/
def reconnectGo (outs : Nat → ConnectOutcome) : WsState → Nat → Nat → WsState × Nat
  | st, _, 0 => (st, 0)
  | st, attempt, remaining + 1 =>
    if st.shutdown then (st, 0)
    else
      match connect (outs attempt) st with
      | (st2, none) => (st2, 1)
      | (st2, some _) =>
        ((reconnectGo outs st2 (attempt + 1) remaining).1,
         (reconnectGo outs st2 (attempt + 1) remaining).2 + 1)

/-- `_reconnect()`: up to `max_reconnect_attempts` calls to `connect()`,
stopping at the first success; between failed attempts it sleeps
`reconnect_delay` (time is not modelled). -/
def reconnect (outs : Nat → ConnectOutcome) (st : WsState) : WsState × Nat :=
  reconnectGo outs st 1 st.maxReconnectAttempts

/-- `get_devices()`: allocates the next message id, registers a pending
future, sends `getDevicesIntegration`, then awaits the future for 10 time
units.  Every failure path catches its exception and returns `[]`; only
the timeout path removes the pending entry (`pop(message_id, None)`). -/
def get_devices (st : WsState) (sendO : SendOutcome) (awaitO : AwaitOutcome) :
    GDResult × WsState :=
  if st.connected = false ∨ st.ws.isSome = false then (GDResult.ret [], st)
  else
    let midS := toString (st.messageId + 1)
    let st1 := { st with messageId := st.messageId + 1
                         pendingResponses := assocInsert st.pendingResponses midS false }
    match sendO with
    | SendOutcome.err => (GDResult.ret [], st1)
    | SendOutcome.ok =>
      match awaitO with
      | AwaitOutcome.timeout =>
        (GDResult.ret [],
         { st1 with pendingResponses := assocErase st1.pendingResponses midS })
      | AwaitOutcome.response env =>
        match env with
        | Json.obj efs =>
          if jsonTruthy ((objGet efs "status").getD (Json.bool true)) = false then
            (GDResult.ret [], st1)
          else
            match (objGet efs "data").getD (Json.arr []) with
            | Json.arr ds => (GDResult.ret ds, st1)
            | _ => (GDResult.ret [], st1)
        | _ => (GDResult.ret [], st1)

/-- Result of `send_command`: the boolean return value, the frame that was
written on success, and the state after the call. -/
structure SendResult where
  ok : Bool
  sent : Option Json
  state : WsState

/-- `send_command(device_id, method, params)`: allocates the next message
id, builds the frame (`updateParams` nests the device id), writes with a
5-unit timeout, and returns `False` on every failure path. -/
def send_command (st : WsState) (deviceId method : String) (params : Json)
    (o : SendCmdOutcome) : SendResult :=
  if st.connected = false ∨ st.ws.isSome = false then ⟨false, none, st⟩
  else
    let midS := toString (st.messageId + 1)
    let st1 := { st with messageId := st.messageId + 1 }
    let msg : Json :=
      if method = "updateParams" then
        Json.obj [("method", Json.str method), ("id", Json.str midS),
                  ("data", Json.obj [("id", Json.str deviceId), ("data", params)])]
      else
        Json.obj [("method", Json.str method), ("id", Json.str midS), ("data", params)]
    match o with
    | SendCmdOutcome.ok => ⟨true, some msg, st1⟩
    | SendCmdOutcome.timeout => ⟨false, none, st1⟩
    | SendCmdOutcome.err => ⟨false, none, st1⟩

/-- `add_listener(listener)`. -/
def add_listener (st : WsState) (l : Nat) : WsState :=
  if st.listeners.contains l then st
  else { st with listeners := st.listeners ++ [l] }

/-- `remove_listener(listener)` (removes the first occurrence when
present). -/
def remove_listener (st : WsState) (l : Nat) : WsState :=
  { st with listeners := st.listeners.erase l }

/-- `disconnect()`: sets the shutdown flag, clears `connected`, cancels
both tasks, clears the listeners, and closes the socket, swallowing any
close error (`closeErr` chooses whether `ws.close()` raises).  The
pending-response table is not touched. -/
def disconnect (closeErr : Bool) (st : WsState) : WsState :=
  match st.ws with
  | none =>
    { st with shutdown := true
              connected := false
              reconnectTask := cancelTask st.reconnectTask
              listenTask := cancelTask st.listenTask
              listeners := [] }
  | some sock =>
    if closeErr then
      { st with shutdown := true
                connected := false
                reconnectTask := cancelTask st.reconnectTask
                listenTask := cancelTask st.listenTask
                listeners := [] }
    else
      { st with shutdown := true
                connected := false
                reconnectTask := cancelTask st.reconnectTask
                listenTask := cancelTask st.listenTask
                listeners := []
                ws := some { sock with closed := true } }

end AmbientLedWebsocket

/-- The `WebSocketManager._connections` dict, keyed by the
`f"{token}_{url}"` string (mutations are serialized under `self._lock`,
so the sequential model is exact). -/
def Manager := List (String × WsState)

/-- What a caller of `get_connection` observes: the returned session or a
propagated `connect()` exception. -/
inductive GCResult where
  | ok (s : WsState)
  | raised (e : ConnErr)
deriving DecidableEq, Repr

/-- Result of `get_connection`: the registry afterwards, the caller-visible
result, and — because the discarded object stays observable to anyone
holding a reference — the stale session after its `disconnect()` call,
when one was discarded. -/
structure GCOut where
  mgr : Manager
  result : GCResult
  stale : Option WsState

namespace WebSocketManager

/-- `get_connection(token, url, hass)`: reuse a connected session for the
key; disconnect and drop a stale one; otherwise build a fresh session,
store it under the key, and only then await `connect()`, whose exception
propagates (the registry keeps the never-connected entry).  Because the
stored object is mutated in place by `connect`, the map entry always
reflects the session's post-`connect` state. -/
def get_connection (token url : String) (o : ConnectOutcome) (closeErr : Bool)
    (m : Manager) : GCOut :=
  let key := token ++ "_" ++ url
  match assocGet m key with
  | some conn =>
    if conn.connected then { mgr := m, result := GCResult.ok conn, stale := none }
    else
      let discarded := AmbientLedWebsocket.disconnect closeErr conn
      let m2 := assocErase m key
      let fresh := AmbientLedWebsocket.initWs token url
      let m3 := assocInsert m2 key fresh
      match AmbientLedWebsocket.connect o fresh with
      | (c2, none) =>
        { mgr := assocInsert m3 key c2, result := GCResult.ok c2, stale := some discarded }
      | (c2, some e) =>
        { mgr := assocInsert m3 key c2, result := GCResult.raised e, stale := some discarded }
  | none =>
    let fresh := AmbientLedWebsocket.initWs token url
    let m3 := assocInsert m key fresh
    match AmbientLedWebsocket.connect o fresh with
    | (c2, none) =>
      { mgr := assocInsert m3 key c2, result := GCResult.ok c2, stale := none }
    | (c2, some e) =>
      { mgr := assocInsert m3 key c2, result := GCResult.raised e, stale := none }

end WebSocketManager

/-- One session-level operation, for reasoning about traces after
`disconnect()` (claim about ShuttingDown being terminal).  Each
constructor packages the oracles its operation consumes. -/
inductive WsOp where
  | handleMsg (msg : String)
  | getDevs (sendO : SendOutcome) (awaitO : AwaitOutcome)
  | sendCmd (deviceId method : String) (params : Json) (o : SendCmdOutcome)
  | connectOp (o : ConnectOutcome)
  | reconnectOp (outs : Nat → ConnectOutcome)
  | listenExitOp
  | scheduleReconnectOp
  | disconnectOp (closeErr : Bool)

open AmbientLedWebsocket in
/-- Apply one operation; the boolean records whether a reconnect task was
scheduled by that operation (`_schedule_reconnect` creating a task). -/
def stepOp (st : WsState) : WsOp → WsState × Bool
  | WsOp.handleMsg msg => ((handle_message st msg).1, false)
  | WsOp.getDevs s a => ((get_devices st s a).2, false)
  | WsOp.sendCmd d m p o => ((send_command st d m p o).state, false)
  | WsOp.connectOp o => ((connect o st).1, false)
  | WsOp.reconnectOp outs => ((reconnect outs st).1, false)
  | WsOp.listenExitOp => listen_exit st
  | WsOp.scheduleReconnectOp => schedule_reconnect st
  | WsOp.disconnectOp e => (disconnect e st, false)

/-- Whether any operation of the trace schedules a reconnect task. -/
def anyScheduled (st : WsState) : List WsOp → Bool
  | [] => false
  | op :: ops =>
    let r := stepOp st op
    r.2 || anyScheduled r.1 ops

section Lemmas

/-- Popping a key removes every binding of it. -/
theorem assocGet_erase_self {β : Type} (l : List (String × β)) (k : String) :
    assocGet (assocErase l k) k = none := by
  induction l with
  | nil => rfl
  | cons p rest ih =>
    by_cases h : p.1 = k
    · simpa [assocErase, List.filter_cons, h] using ih
    · simpa [assocErase, List.filter_cons, h, assocGet] using ih

/-- Popping one key leaves every other binding unchanged. -/
theorem assocGet_erase_ne {β : Type} (l : List (String × β)) (k t : String)
    (h : t ≠ k) : assocGet (assocErase l k) t = assocGet l t := by
  have hkt : k ≠ t := Ne.symm h
  induction l with
  | nil => rfl
  | cons p rest ih =>
    by_cases hp : p.1 = k
    · simpa [assocErase, List.filter_cons, hp, assocGet, hkt, h] using ih
    · by_cases ht : p.1 = t
      · simp [assocErase, List.filter_cons, hp, assocGet, ht, h]
      · simpa [assocErase, List.filter_cons, hp, assocGet, ht, h] using ih

/-- `skipWs` removes a whitespace prefix and nothing else. -/
theorem skipWs_prefix (cs : List Char) :
    ∃ pre, cs = pre ++ skipWs cs ∧ ∀ c ∈ pre, isWsChar c = true := by
  induction cs with
  | nil => exact ⟨[], rfl, by simp⟩
  | cons c cs ih =>
    by_cases h : isWsChar c = true
    · obtain ⟨pre, hpre, hws⟩ := ih
      refine ⟨c :: pre, ?_, ?_⟩
      · simp only [skipWs, h, if_true, List.cons_append]
        exact congrArg (c :: ·) hpre
      · intro d hd
        rcases List.mem_cons.mp hd with h1 | h2
        · rw [h1]; exact h
        · exact hws d h2
    · refine ⟨[], ?_, by simp⟩
      simp [skipWs, h]

/-- The head surviving `skipWs` is not whitespace. -/
theorem skipWs_head_not_ws {cs : List Char} {c : Char} {rest : List Char}
    (hsk : skipWs cs = c :: rest) : isWsChar c = false := by
  induction cs with
  | nil => exact absurd hsk (by simp [skipWs])
  | cons d ds ih =>
    by_cases h : isWsChar d = true
    · exact ih (by simpa [skipWs, h] using hsk)
    · have : d :: ds = c :: rest := by simpa [skipWs, h] using hsk
      cases this
      simpa using h

/-- If the input has a surviving head after leading-whitespace removal,
`pyStrip` keeps that head. -/
theorem strip_head {cs : List Char} {c : Char} {rest : List Char}
    (hsk : skipWs cs = c :: rest) : ∃ t, pyStrip cs = c :: t := by
  have hnw := skipWs_head_not_ws hsk
  unfold pyStrip
  rw [hsk]
  obtain ⟨pre, hR, hpre⟩ := skipWs_prefix ((c :: rest).reverse)
  cases hL : skipWs ((c :: rest).reverse) with
  | nil =>
    rw [hL, List.append_nil] at hR
    exfalso
    have hc : c ∈ (c :: rest).reverse := by simp
    rw [hR] at hc
    rw [hpre c hc] at hnw
    exact Bool.noConfusion hnw
  | cons y ys =>
    rw [hL] at hR
    have h2 : c :: rest = (y :: ys).reverse ++ pre.reverse := by
      have := congrArg List.reverse hR
      simpa using this
    rcases hz : (y :: ys).reverse with _ | ⟨z, zs⟩
    · exact absurd hz (by simp)
    · rw [hz] at h2
      rw [List.cons_append] at h2
      have hc : c = z := (List.cons.injEq _ _ _ _).mp h2 |>.1
      refine ⟨zs, ?_⟩
      rw [hc]

/-- The characters a JSON value can start with. -/
def jsonStartChar (c : Char) : Prop :=
  c = 'n' ∨ c = 't' ∨ c = 'f' ∨ c = '"' ∨ (c = '-' ∨ isDigitChar c = true) ∨
  c = '[' ∨ c = '\x7b'

/-- The parser fails when the first non-blank character cannot start a
JSON value. -/
theorem parseVal_none_of_bad_head (fuel : Nat) {cs : List Char} {c : Char}
    {rest : List Char} (hsk : skipWs cs = c :: rest)
    (hbad : ¬ jsonStartChar c) : parseVal fuel cs = none := by
  unfold jsonStartChar at hbad
  push_neg at hbad
  obtain ⟨h1, h2, h3, h4, h5, h6, h7⟩ := hbad
  cases fuel with
  | zero => rfl
  | succ n =>
    rw [parseVal, hsk]
    simp [h1, h2, h3, h4, h5.1, h5.2, h6, h7]

/-- The parser fails on all-whitespace input. -/
theorem parseVal_none_of_skip_nil (fuel : Nat) {cs : List Char}
    (hsk : skipWs cs = []) : parseVal fuel cs = none := by
  cases fuel with
  | zero => rfl
  | succ n => rw [parseVal, hsk]

/-- A successfully parsed frame survives `strip()` with a head character
that can start a JSON value. -/
theorem jsonParse_strip {m : String} {v : Json} (h : jsonParse m = some v) :
    ∃ c t, pyStrip m.data = c :: t ∧ jsonStartChar c := by
  unfold jsonParse at h
  cases hsk : skipWs m.data with
  | nil =>
    rw [parseVal_none_of_skip_nil _ hsk] at h
    exact absurd h (by simp)
  | cons c rest =>
    by_cases hgood : jsonStartChar c
    · obtain ⟨t, ht⟩ := strip_head hsk
      exact ⟨c, t, ht, hgood⟩
    · rw [parseVal_none_of_bad_head _ hsk hgood] at h
      exact absurd h (by simp)

/-- No character that can start a JSON value lower-cases to `p`, so a
parseable frame is never the keep-alive word `ping`/`pong`. -/
theorem jsonStartChar_lower_ne_p {c : Char} (h : jsonStartChar c) :
    asciiLower c ≠ 'p' := by
  rcases h with h | h | h | h | (h | h) | h | h
  · rw [h]; decide
  · rw [h]; decide
  · rw [h]; decide
  · rw [h]; decide
  · rw [h]; decide
  · unfold isDigitChar at h
    rw [decide_eq_true_iff] at h
    rcases h with h | h | h | h | h | h | h | h | h | h <;> (rw [h]; decide)
  · rw [h]; decide
  · rw [h]; decide

end Lemmas

section Preservation

open AmbientLedWebsocket

/-- Event classification never mutates session state (it only emits
listener notifications). -/
theorem handle_event_fst (st : WsState) (fs : List (String × Json)) :
    (handle_event st fs).1 = st := by
  unfold handle_event
  repeat' split
  all_goals rfl

/-- The message handler never touches the shutdown flag. -/
theorem handle_message_shutdown (st : WsState) (msg : String) :
    (handle_message st msg).1.shutdown = st.shutdown := by
  unfold handle_message
  repeat' split
  all_goals simp [handle_event_fst]

/-- `get_devices` never touches the shutdown flag. -/
theorem get_devices_shutdown (st : WsState) (s : SendOutcome) (a : AwaitOutcome) :
    (get_devices st s a).2.shutdown = st.shutdown := by
  unfold get_devices
  repeat' split
  all_goals rfl

/-- `send_command` never touches the shutdown flag. -/
theorem send_command_shutdown (st : WsState) (d m : String) (p : Json)
    (o : SendCmdOutcome) : (send_command st d m p o).state.shutdown = st.shutdown := by
  unfold send_command
  repeat' split
  all_goals rfl

/-- `connect` never touches the shutdown flag (it only reads it). -/
theorem connect_shutdown (o : ConnectOutcome) (st : WsState) :
    (connect o st).1.shutdown = st.shutdown := by
  unfold connect
  repeat' split
  all_goals rfl

/-- The reconnect loop never touches the shutdown flag. -/
theorem reconnectGo_shutdown (outs : Nat → ConnectOutcome) (st : WsState)
    (attempt fuel : Nat) :
    (reconnectGo outs st attempt fuel).1.shutdown = st.shutdown := by
  induction fuel generalizing st attempt with
  | zero => rfl
  | succ n ih =>
    unfold reconnectGo
    split
    · rfl
    · cases hc : connect (outs attempt) st with
      | mk st2 err =>
        cases err with
        | none =>
          simp only [hc]
          have := connect_shutdown (outs attempt) st
          rw [hc] at this
          exact this
        | some e =>
          simp only [hc]
          have h1 := ih st2 (attempt + 1)
          have h2 := connect_shutdown (outs attempt) st
          rw [hc] at h2
          simpa [h1] using h2

/-- `schedule_reconnect` and `listen_exit` never touch the shutdown flag. -/
theorem schedule_reconnect_shutdown (st : WsState) :
    (schedule_reconnect st).1.shutdown = st.shutdown := by
  unfold schedule_reconnect
  split <;> rfl

theorem listen_exit_shutdown (st : WsState) :
    (listen_exit st).1.shutdown = st.shutdown := by
  unfold listen_exit
  split
  · rfl
  · exact schedule_reconnect_shutdown _

/-- `disconnect` always sets the shutdown flag. -/
theorem disconnect_shutdown (e : Bool) (st : WsState) :
    (disconnect e st).shutdown = true := by
  unfold disconnect
  repeat' split
  all_goals rfl

/-- Once shut down, every operation keeps the session shut down and never
schedules a reconnect task. -/
theorem stepOp_shutdown (st : WsState) (op : WsOp) (h : st.shutdown = true) :
    (stepOp st op).1.shutdown = true ∧ (stepOp st op).2 = false := by
  cases op with
  | handleMsg msg => exact ⟨(handle_message_shutdown st msg).trans h, rfl⟩
  | getDevs s a => exact ⟨(get_devices_shutdown st s a).trans h, rfl⟩
  | sendCmd d m p o => exact ⟨(send_command_shutdown st d m p o).trans h, rfl⟩
  | connectOp o => exact ⟨(connect_shutdown o st).trans h, rfl⟩
  | reconnectOp outs =>
    refine ⟨?_, rfl⟩
    have h1 := reconnectGo_shutdown outs st 1 st.maxReconnectAttempts
    exact h1.trans h
  | listenExitOp =>
    constructor
    · exact (listen_exit_shutdown st).trans h
    · show (listen_exit st).2 = false
      unfold listen_exit schedule_reconnect
      simp [h]
  | scheduleReconnectOp =>
    constructor
    · exact (schedule_reconnect_shutdown st).trans h
    · show (schedule_reconnect st).2 = false
      unfold schedule_reconnect
      simp [h]
  | disconnectOp e => exact ⟨disconnect_shutdown e st, rfl⟩

/-- No trace of operations starting from a shut-down session ever
schedules a reconnect task. -/
theorem anyScheduled_of_shutdown (st : WsState) (ops : List WsOp)
    (h : st.shutdown = true) : anyScheduled st ops = false := by
  induction ops generalizing st with
  | nil => rfl
  | cons op ops ih =>
    obtain ⟨h1, h2⟩ := stepOp_shutdown st op h
    show ((stepOp st op).2 || anyScheduled (stepOp st op).1 ops) = false
    rw [h2, ih _ h1]
    rfl

end Preservation

/-- Dict assignment makes the key retrievable. -/
theorem assocGet_insert_self {β : Type} (l : List (String × β)) (k : String) (v : β) :
    assocGet (assocInsert l k v) k = some v := by
  induction l with
  | nil => simp [assocInsert, assocGet]
  | cons p rest ih =>
    by_cases h : p.1 = k
    · simp [assocInsert, h, assocGet]
    · simp [assocInsert, h, assocGet, ih]

/-- When not shutting down, every non-success handshake outcome makes
`connect` clear the connected flag and raise. -/
theorem connect_fail (o : ConnectOutcome) (st : WsState)
    (hsd : st.shutdown = false) (ho : o ≠ ConnectOutcome.success) :
    ∃ e, AmbientLedWebsocket.connect o st =
      ({ st with connected := false }, some e) := by
  cases o with
  | success => exact absurd rfl ho
  | timeout =>
    exact ⟨ConnErr.connectTimeout, by simp [AmbientLedWebsocket.connect, hsd]⟩
  | invalidUri =>
    exact ⟨ConnErr.invalidUrl, by simp [AmbientLedWebsocket.connect, hsd]⟩
  | invalidStatus code =>
    by_cases h401 : code = 401
    · exact ⟨ConnErr.authFailed, by simp [AmbientLedWebsocket.connect, hsd, h401]⟩
    · exact ⟨ConnErr.serverError code,
        by simp [AmbientLedWebsocket.connect, hsd, h401]⟩
  | otherErr m =>
    exact ⟨ConnErr.connectionFailed m, by simp [AmbientLedWebsocket.connect, hsd]⟩

/-- C8: feeding the message handler the frame "not json" never throws,
resolves no pending entry, notifies no listener, and leaves the state —
in particular the pending-response table — unchanged. -/
theorem claim_C8_malformed_frame_discarded (st : WsState) :
    AmbientLedWebsocket.handle_message st "not json" = (st, []) := rfl

/-- C6: `disconnect()` is idempotent — a second call in a row leaves the
shutdown flag, the connected flag, the listener list, both task handles
and the pending table exactly as the first call left them — and, the
model being total with the `ws.close()` error swallowed (either value of
the close-outcome oracle), neither call throws. -/
theorem claim_C6_disconnect_idempotent (st : WsState) (e1 e2 : Bool) :
    (AmbientLedWebsocket.disconnect e2 (AmbientLedWebsocket.disconnect e1 st)).shutdown
      = (AmbientLedWebsocket.disconnect e1 st).shutdown ∧
    (AmbientLedWebsocket.disconnect e2 (AmbientLedWebsocket.disconnect e1 st)).connected
      = (AmbientLedWebsocket.disconnect e1 st).connected ∧
    (AmbientLedWebsocket.disconnect e2 (AmbientLedWebsocket.disconnect e1 st)).listeners
      = (AmbientLedWebsocket.disconnect e1 st).listeners ∧
    (AmbientLedWebsocket.disconnect e2 (AmbientLedWebsocket.disconnect e1 st)).reconnectTask
      = (AmbientLedWebsocket.disconnect e1 st).reconnectTask ∧
    (AmbientLedWebsocket.disconnect e2 (AmbientLedWebsocket.disconnect e1 st)).listenTask
      = (AmbientLedWebsocket.disconnect e1 st).listenTask ∧
    (AmbientLedWebsocket.disconnect e2 (AmbientLedWebsocket.disconnect e1 st)).pendingResponses
      = (AmbientLedWebsocket.disconnect e1 st).pendingResponses := by
  have hidem : ∀ t, cancelTask (cancelTask t) = cancelTask t := by
    intro t; cases t <;> rfl
  unfold AmbientLedWebsocket.disconnect
  cases st.ws <;> cases e1 <;> cases e2 <;> simp [hidem]

/-- C3 counterexample: at a connected state with one in-flight request,
`disconnect()` leaves the pending entry in the table with its future
still unresolved — it does not fail the request with `SessionClosed`
(or with anything else). -/
theorem claim_C3_counterexample :
    assocGet (AmbientLedWebsocket.disconnect false
      { AmbientLedWebsocket.initWs "t" "u" with
          connected := true
          ws := some { closed := false }
          pendingResponses := [("1", false)] }).pendingResponses "1"
      = some false := rfl

/-- C3 amended: `disconnect()` does not resolve or remove any pending
request — the pending-response table is untouched (an in-flight request
fails only later, through its own 10-unit await timeout). -/
theorem claim_C3_amended (e : Bool) (st : WsState) :
    (AmbientLedWebsocket.disconnect e st).pendingResponses = st.pendingResponses := by
  unfold AmbientLedWebsocket.disconnect
  repeat' split
  all_goals rfl

/-- C5: a reader-loop exit schedules the Reconnector exactly when the
session is not shutting down, and once `disconnect()` has set the
shutdown flag no operation of any subsequent trace ever schedules a
reconnect task (ShuttingDown is terminal). -/
theorem claim_C5_shutdown_terminal (st : WsState) (e : Bool) (ops : List WsOp) :
    (AmbientLedWebsocket.listen_exit st).2 = !st.shutdown ∧
    anyScheduled (AmbientLedWebsocket.disconnect e st) ops = false := by
  constructor
  · unfold AmbientLedWebsocket.listen_exit AmbientLedWebsocket.schedule_reconnect
    by_cases h : st.shutdown = true
    · simp [h]
    · rw [Bool.not_eq_true] at h
      simp [h]
  · exact anyScheduled_of_shutdown _ _ (disconnect_shutdown e st)

open AmbientLedWebsocket in
/-- C1: for every inbound frame that parses to an Envelope whose `id` is a
string matching an entry of the pending-response table (whose future is
not yet done), `_handle_message` pops exactly that entry, resolves its
future with the full Envelope, and stops: the result is precisely one
resolution effect (no listener notification), every other pending entry
is untouched, and the matched id is gone from the table. -/
theorem claim_C1_response_precedence (st : WsState) (message : String)
    (fs : List (String × Json)) (s : String)
    (hparse : jsonParse message = some (Json.obj fs))
    (hid : objGet fs "id" = some (Json.str s))
    (hpend : assocGet st.pendingResponses s = some false) :
    handle_message st message =
      ({ st with pendingResponses := assocErase st.pendingResponses s },
       [MsgEffect.resolve s (Json.obj fs)]) ∧
    (∀ t, t ≠ s → assocGet (assocErase st.pendingResponses s) t
        = assocGet st.pendingResponses t) ∧
    assocGet (assocErase st.pendingResponses s) s = none := by
  obtain ⟨c, tl, hstrip, hstart⟩ := jsonParse_strip hparse
  have hlow := jsonStartChar_lower_ne_p hstart
  refine ⟨?_, fun t ht => assocGet_erase_ne _ _ _ ht, assocGet_erase_self _ _⟩
  have hne : ¬ (pyStrip message.data = []) := by rw [hstrip]; simp
  have hguard : ¬ (pyLower (pyStrip message.data) = "pong".data ∨
                   pyLower (pyStrip message.data) = "ping".data) := by
    rw [hstrip]
    rintro (h | h)
    · have h2 : pyLower (c :: tl) = 'p' :: 'o' :: 'n' :: 'g' :: [] := h
      exact hlow (by simpa [pyLower] using congrArg (fun l => l.headD 'x') h2)
    · have h2 : pyLower (c :: tl) = 'p' :: 'i' :: 'n' :: 'g' :: [] := h
      exact hlow (by simpa [pyLower] using congrArg (fun l => l.headD 'x') h2)
  unfold handle_message
  simp only [hparse, hid, hpend, if_neg hne, if_neg hguard]
  rfl

/-- C1 witness: a concrete correlated response frame resolves the
matching pending entry, with one listener registered and no
notification emitted. -/
theorem claim_C1_response_precedence_witness :
    AmbientLedWebsocket.handle_message
      { AmbientLedWebsocket.initWs "t" "u" with
          connected := true
          ws := some { closed := false }
          listeners := [7]
          pendingResponses := [("1", false)] }
      "\x7b\"id\": \"1\"\x7d" =
      ({ AmbientLedWebsocket.initWs "t" "u" with
          connected := true
          ws := some { closed := false }
          listeners := [7]
          pendingResponses := assocErase [("1", false)] "1" },
       [MsgEffect.resolve "1" (Json.obj [("id", Json.str "1")])]) :=
  (claim_C1_response_precedence
    { AmbientLedWebsocket.initWs "t" "u" with
        connected := true
        ws := some { closed := false }
        listeners := [7]
        pendingResponses := [("1", false)] }
    "\x7b\"id\": \"1\"\x7d" [("id", Json.str "1")] "1" rfl rfl rfl).1

/-- C2 counterexample: at a connected state, a `get_devices` whose await
times out returns `[]` normally — it does not fail with a
`RequestTimeout` error (nor with any other exception). -/
theorem claim_C2_counterexample :
    (AmbientLedWebsocket.get_devices
      { AmbientLedWebsocket.initWs "t" "u" with
          connected := true
          ws := some { closed := false } }
      SendOutcome.ok AwaitOutcome.timeout).1 = GDResult.ret [] ∧
    (AmbientLedWebsocket.get_devices
      { AmbientLedWebsocket.initWs "t" "u" with
          connected := true
          ws := some { closed := false } }
      SendOutcome.ok AwaitOutcome.timeout).1
      ≠ GDResult.raised WsError.requestTimeout := by
  refine ⟨rfl, fun h => ?_⟩
  exact GDResult.noConfusion h

/-- C2 amended: a `get_devices` call that receives no matching response
within its 10-unit timeout returns the empty device list (logging the
timeout, raising nothing), and after the timeout the pending-response
table contains no entry for that request's message id. -/
theorem claim_C2_amended (st : WsState) (hc : st.connected = true)
    (hw : st.ws.isSome = true) :
    (AmbientLedWebsocket.get_devices st SendOutcome.ok AwaitOutcome.timeout).1
      = GDResult.ret [] ∧
    assocGet (AmbientLedWebsocket.get_devices st SendOutcome.ok
        AwaitOutcome.timeout).2.pendingResponses (toString (st.messageId + 1))
      = none := by
  constructor
  · simp [AmbientLedWebsocket.get_devices, hc, hw]
  · simp [AmbientLedWebsocket.get_devices, hc, hw, assocGet_erase_self]

/-- C2 amended, witness at a concrete connected state. -/
theorem claim_C2_amended_witness :
    (AmbientLedWebsocket.get_devices
      { AmbientLedWebsocket.initWs "t" "u" with
          connected := true
          ws := some { closed := false } }
      SendOutcome.ok AwaitOutcome.timeout).1 = GDResult.ret [] ∧
    assocGet (AmbientLedWebsocket.get_devices
      { AmbientLedWebsocket.initWs "t" "u" with
          connected := true
          ws := some { closed := false } }
      SendOutcome.ok AwaitOutcome.timeout).2.pendingResponses "1" = none :=
  claim_C2_amended _ rfl rfl

/-- `disconnect` always clears the connected flag. -/
theorem disconnect_connected (e : Bool) (st : WsState) :
    (AmbientLedWebsocket.disconnect e st).connected = false := by
  unfold AmbientLedWebsocket.disconnect
  repeat' split
  all_goals rfl

open AmbientLedWebsocket in
/-- The reconnect loop calls `connect` at most `fuel` times. -/
theorem reconnectGo_count_le (outs : Nat → ConnectOutcome) (st : WsState)
    (attempt fuel : Nat) : (reconnectGo outs st attempt fuel).2 ≤ fuel := by
  induction fuel generalizing st attempt with
  | zero => exact Nat.le_refl 0
  | succ n ih =>
    unfold reconnectGo
    split
    · exact Nat.zero_le _
    · split
      · exact Nat.succ_le_succ (Nat.zero_le n)
      · exact Nat.succ_le_succ (ih _ _)

open AmbientLedWebsocket in
/-- When every handshake outcome is a failure and the session is not
shutting down, the reconnect loop consumes all its attempts and ends
not connected. -/
theorem reconnectGo_all_fail (outs : Nat → ConnectOutcome)
    (hfail : ∀ i, outs i ≠ ConnectOutcome.success) (st : WsState)
    (attempt fuel : Nat) (hsd : st.shutdown = false) :
    (reconnectGo outs st attempt fuel).2 = fuel ∧
    (0 < fuel → (reconnectGo outs st attempt fuel).1.connected = false) := by
  induction fuel generalizing st attempt with
  | zero => exact ⟨rfl, fun h => absurd h (by omega)⟩
  | succ n ih =>
    obtain ⟨e, hconn⟩ := connect_fail (outs attempt) st hsd (hfail attempt)
    have hsd2 : ({ st with connected := false } : WsState).shutdown = false := hsd
    unfold reconnectGo
    rw [if_neg (by simp [hsd])]
    simp only [hconn]
    constructor
    · have := (ih { st with connected := false } (attempt + 1) hsd2).1
      simp [this]
    · intro _
      cases n with
      | zero => rfl
      | succ mm =>
        exact (ih { st with connected := false } (attempt + 1) hsd2).2 (Nat.succ_pos mm)

open AmbientLedWebsocket in
/-- C4: after a reader-loop exit not caused by explicit disconnect, the
Reconnector calls `connect()` at most `max_reconnect_attempts` times
(bound stated for every state); when all 5 configured attempts fail, the
loop makes exactly 5 calls, ends with `connected = false`, and
terminates — no further automatic connect attempts are made. -/
theorem claim_C4_reconnect_exhaustion (st : WsState) (outs : Nat → ConnectOutcome)
    (h5 : st.maxReconnectAttempts = 5) (hsd : st.shutdown = false)
    (hfail : ∀ i, outs i ≠ ConnectOutcome.success) :
    (reconnect outs st).2 = 5 ∧
    (reconnect outs st).1.connected = false ∧
    (∀ st2 outs2, (reconnect outs2 st2).2 ≤ st2.maxReconnectAttempts) := by
  unfold reconnect
  rw [h5]
  obtain ⟨hcount, hconn⟩ := reconnectGo_all_fail outs hfail st 1 5 hsd
  exact ⟨hcount, hconn (by omega),
    fun st2 outs2 => reconnectGo_count_le outs2 st2 1 st2.maxReconnectAttempts⟩

/-- C4 witness: five timeouts in a row exhaust the Reconnector on a fresh
session. -/
theorem claim_C4_reconnect_exhaustion_witness :
    (AmbientLedWebsocket.reconnect (fun _ => ConnectOutcome.timeout)
      (AmbientLedWebsocket.initWs "t" "u")).2 = 5 ∧
    (AmbientLedWebsocket.reconnect (fun _ => ConnectOutcome.timeout)
      (AmbientLedWebsocket.initWs "t" "u")).1.connected = false :=
  ⟨(claim_C4_reconnect_exhaustion (AmbientLedWebsocket.initWs "t" "u")
      (fun _ => ConnectOutcome.timeout) rfl rfl
      (fun _ h => ConnectOutcome.noConfusion h)).1,
   (claim_C4_reconnect_exhaustion (AmbientLedWebsocket.initWs "t" "u")
      (fun _ => ConnectOutcome.timeout) rfl rfl
      (fun _ h => ConnectOutcome.noConfusion h)).2.1⟩

open AmbientLedWebsocket in
/-- C9: `get_devices` and `send_command` return normally on every failure
path instead of raising a typed error — `get_devices` always returns a
normal value and yields the empty list when not connected, on a send
error, on a response timeout, when the response carries `status: false`,
and when the response `data` is not a list, so such failures are
indistinguishable from a backend with zero devices; `send_command`
returns `False` when not connected, on a write timeout, and on any
write error. -/
theorem claim_C9_failures_return_normally (st : WsState) (sendO : SendOutcome)
    (awaitO : AwaitOutcome) (efs : List (String × Json)) (d : Json)
    (deviceId meth : String) (params : Json) (o : SendCmdOutcome) :
    (∃ r st2, get_devices st sendO awaitO = (GDResult.ret r, st2)) ∧
    (st.connected = false → (get_devices st sendO awaitO).1 = GDResult.ret []) ∧
    ((get_devices st SendOutcome.err awaitO).1 = GDResult.ret []) ∧
    ((get_devices st SendOutcome.ok AwaitOutcome.timeout).1 = GDResult.ret []) ∧
    (objGet efs "status" = some (Json.bool false) →
      (get_devices st SendOutcome.ok (AwaitOutcome.response (Json.obj efs))).1
        = GDResult.ret []) ∧
    (objGet efs "data" = some d → d.isArr = false →
      jsonTruthy ((objGet efs "status").getD (Json.bool true)) = true →
      (get_devices st SendOutcome.ok (AwaitOutcome.response (Json.obj efs))).1
        = GDResult.ret []) ∧
    (st.connected = false → (send_command st deviceId meth params o).ok = false) ∧
    ((send_command st deviceId meth params SendCmdOutcome.timeout).ok = false) ∧
    ((send_command st deviceId meth params SendCmdOutcome.err).ok = false) := by
  refine ⟨?_, ?_, ?_, ?_, ?_, ?_, ?_, ?_, ?_⟩
  · unfold get_devices
    repeat' split
    all_goals exact ⟨_, _, rfl⟩
  · intro hc
    simp [get_devices, hc]
  · unfold get_devices
    split <;> rfl
  · unfold get_devices
    split <;> rfl
  · intro hstat
    unfold get_devices
    split
    · rfl
    · simp [hstat, jsonTruthy]
  · intro hd hnarr hst
    unfold get_devices
    split
    · rfl
    · simp only [hst, hd, Option.getD_some]
      cases d <;> simp_all [Json.isArr]
  · intro hc
    simp [send_command, hc]
  · unfold send_command
    split <;> rfl
  · unfold send_command
    split <;> rfl

/-- C9 witness: each hypothesis-bearing failure path exercised at a
concrete state and envelope. -/
theorem claim_C9_failures_return_normally_witness :
    ((AmbientLedWebsocket.get_devices (AmbientLedWebsocket.initWs "t" "u")
        SendOutcome.ok AwaitOutcome.timeout).1 = GDResult.ret []) ∧
    ((AmbientLedWebsocket.get_devices
        { AmbientLedWebsocket.initWs "t" "u" with
            connected := true
            ws := some { closed := false } }
        SendOutcome.ok
        (AwaitOutcome.response (Json.obj [("status", Json.bool false)]))).1
      = GDResult.ret []) ∧
    ((AmbientLedWebsocket.get_devices
        { AmbientLedWebsocket.initWs "t" "u" with
            connected := true
            ws := some { closed := false } }
        SendOutcome.ok
        (AwaitOutcome.response (Json.obj [("data", Json.str "x")]))).1
      = GDResult.ret []) ∧
    ((AmbientLedWebsocket.send_command (AmbientLedWebsocket.initWs "t" "u")
        "d" "updateParams" Json.null SendCmdOutcome.ok).ok = false) :=
  ⟨(claim_C9_failures_return_normally (AmbientLedWebsocket.initWs "t" "u")
      SendOutcome.ok AwaitOutcome.timeout [] Json.null "d" "updateParams"
      Json.null SendCmdOutcome.ok).2.1 rfl,
   (claim_C9_failures_return_normally
      { AmbientLedWebsocket.initWs "t" "u" with
          connected := true
          ws := some { closed := false } }
      SendOutcome.ok AwaitOutcome.timeout [("status", Json.bool false)] Json.null
      "d" "updateParams" Json.null SendCmdOutcome.ok).2.2.2.2.1 rfl,
   (claim_C9_failures_return_normally
      { AmbientLedWebsocket.initWs "t" "u" with
          connected := true
          ws := some { closed := false } }
      SendOutcome.ok AwaitOutcome.timeout [("data", Json.str "x")] (Json.str "x")
      "d" "updateParams" Json.null SendCmdOutcome.ok).2.2.2.2.2.1 rfl rfl rfl,
   (claim_C9_failures_return_normally (AmbientLedWebsocket.initWs "t" "u")
      SendOutcome.ok AwaitOutcome.timeout [] Json.null "d" "updateParams"
      Json.null SendCmdOutcome.ok).2.2.2.2.2.2.1 rfl⟩

/-- C7: registry acquisition — when a connected session already exists
for the `token_url` key, `get_connection` returns exactly that session
and changes nothing (in particular no `connect` is attempted, whatever
its outcome oracle would say); when the existing session for the key is
not connected, it is disconnected (shutdown set, connected cleared) and
discarded, and a fresh session (blank pending table, message counter 0,
the given credentials) is built, connected, and is what both the result
and the map entry under the same key now hold. -/
theorem claim_C7_registry_acquire (m : Manager) (token url : String)
    (closeErr : Bool) :
    (∀ c, assocGet m (token ++ "_" ++ url) = some c → c.connected = true →
      ∀ o, WebSocketManager.get_connection token url o closeErr m =
        { mgr := m, result := GCResult.ok c, stale := none }) ∧
    (∀ c, assocGet m (token ++ "_" ++ url) = some c → c.connected = false →
      (WebSocketManager.get_connection token url ConnectOutcome.success
          closeErr m).result
        = GCResult.ok { AmbientLedWebsocket.initWs token url with
                          ws := some { closed := false }
                          connected := true
                          listenTask := TaskState.active } ∧
      assocGet (WebSocketManager.get_connection token url ConnectOutcome.success
          closeErr m).mgr (token ++ "_" ++ url)
        = some { AmbientLedWebsocket.initWs token url with
                   ws := some { closed := false }
                   connected := true
                   listenTask := TaskState.active } ∧
      (WebSocketManager.get_connection token url ConnectOutcome.success
          closeErr m).stale
        = some (AmbientLedWebsocket.disconnect closeErr c) ∧
      (AmbientLedWebsocket.disconnect closeErr c).shutdown = true ∧
      (AmbientLedWebsocket.disconnect closeErr c).connected = false) := by
  constructor
  · intro c hc hcon o
    unfold WebSocketManager.get_connection
    simp [hc, hcon]
  · intro c hc hcon
    have hcs : AmbientLedWebsocket.connect ConnectOutcome.success
        (AmbientLedWebsocket.initWs token url)
      = ({ AmbientLedWebsocket.initWs token url with
             ws := some { closed := false }
             connected := true
             listenTask := TaskState.active }, none) := rfl
    unfold WebSocketManager.get_connection
    simp [hc, hcon, hcs, assocGet_insert_self,
          disconnect_shutdown, disconnect_connected]

/-- C7 witness: a connected entry is reused untouched (even with a
handshake oracle that would fail); a stale entry is replaced by a fresh
connected session under the same key. -/
theorem claim_C7_registry_acquire_witness :
    (WebSocketManager.get_connection "t" "u" ConnectOutcome.timeout false
        [("t_u", { AmbientLedWebsocket.initWs "t" "u" with
                     connected := true
                     ws := some { closed := false } })] =
      { mgr := [("t_u", { AmbientLedWebsocket.initWs "t" "u" with
                            connected := true
                            ws := some { closed := false } })]
        result := GCResult.ok { AmbientLedWebsocket.initWs "t" "u" with
                                  connected := true
                                  ws := some { closed := false } }
        stale := none }) ∧
    ((WebSocketManager.get_connection "t" "u" ConnectOutcome.success false
        [("t_u", AmbientLedWebsocket.initWs "t" "u")]).result
      = GCResult.ok { AmbientLedWebsocket.initWs "t" "u" with
                        ws := some { closed := false }
                        connected := true
                        listenTask := TaskState.active } ∧
     assocGet (WebSocketManager.get_connection "t" "u" ConnectOutcome.success false
        [("t_u", AmbientLedWebsocket.initWs "t" "u")]).mgr ("t" ++ "_" ++ "u")
      = some { AmbientLedWebsocket.initWs "t" "u" with
                 ws := some { closed := false }
                 connected := true
                 listenTask := TaskState.active } ∧
     (WebSocketManager.get_connection "t" "u" ConnectOutcome.success false
        [("t_u", AmbientLedWebsocket.initWs "t" "u")]).stale
      = some (AmbientLedWebsocket.disconnect false
                (AmbientLedWebsocket.initWs "t" "u")) ∧
     (AmbientLedWebsocket.disconnect false
        (AmbientLedWebsocket.initWs "t" "u")).shutdown = true ∧
     (AmbientLedWebsocket.disconnect false
        (AmbientLedWebsocket.initWs "t" "u")).connected = false) :=
  ⟨(claim_C7_registry_acquire
      [("t_u", { AmbientLedWebsocket.initWs "t" "u" with
                   connected := true
                   ws := some { closed := false } })] "t" "u" false).1
      _ rfl rfl ConnectOutcome.timeout,
   (claim_C7_registry_acquire [("t_u", AmbientLedWebsocket.initWs "t" "u")]
      "t" "u" false).2 _ rfl rfl⟩

/-- C10: in `get_connection` the fresh session is stored in the
connections map before `connect()` is awaited, so when the key is absent
and the handshake fails, the `connect` exception propagates to the
caller while the map retains, under that key, a session that was never
connected (no socket, no listener task, blank pending table) — the
registry is not rolled back on connection failure. -/
theorem claim_C10_registry_keeps_failed_entry (m : Manager) (token url : String)
    (closeErr : Bool) (o : ConnectOutcome)
    (habs : assocGet m (token ++ "_" ++ url) = none)
    (hfail : o ≠ ConnectOutcome.success) :
    (∃ e, (WebSocketManager.get_connection token url o closeErr m).result
        = GCResult.raised e) ∧
    assocGet (WebSocketManager.get_connection token url o closeErr m).mgr
        (token ++ "_" ++ url)
      = some (AmbientLedWebsocket.initWs token url) ∧
    (AmbientLedWebsocket.initWs token url).connected = false ∧
    (AmbientLedWebsocket.initWs token url).ws = none ∧
    (AmbientLedWebsocket.initWs token url).listenTask = TaskState.missing ∧
    (AmbientLedWebsocket.initWs token url).pendingResponses = [] := by
  obtain ⟨e, hconn⟩ := connect_fail o (AmbientLedWebsocket.initWs token url) rfl hfail
  unfold WebSocketManager.get_connection
  simp only [habs, hconn]
  refine ⟨⟨e, rfl⟩, ?_, rfl, rfl, rfl, rfl⟩
  rw [assocGet_insert_self]
  rfl

/-- C10 witness: empty registry, timed-out handshake — the entry stays. -/
theorem claim_C10_registry_keeps_failed_entry_witness :
    assocGet (WebSocketManager.get_connection "t" "u" ConnectOutcome.timeout
        false []).mgr ("t" ++ "_" ++ "u")
      = some (AmbientLedWebsocket.initWs "t" "u") ∧
    (WebSocketManager.get_connection "t" "u" ConnectOutcome.timeout
        false []).result = GCResult.raised ConnErr.connectTimeout :=
  ⟨(claim_C10_registry_keeps_failed_entry [] "t" "u" false ConnectOutcome.timeout
      rfl (fun h => ConnectOutcome.noConfusion h)).2.1, rfl⟩
